import Mathlib

/- Verification of the VadzHelperBot todo-bot core (src/app/handlers.py,
src/app/database.py): a shallow embedding of the per-user session state
machine, the todo service, the pagination engine and the two callback
handlers, together with theorems settling the spec's testable properties.

Modelling conventions:
* Timestamps are natural numbers (seconds); `datetime.now() + timedelta(days=7)`
  becomes `now + 604800`.  Date formatting (`strftime`) is abstracted away.
* Telegram user ids are `Int` (externally supplied integers); todo ids are `Nat`
  (peewee `AutoField`, assigned from the store's `nextTodoId` counter).
* The SQLite query `ORDER BY due_date` is modelled as a sort by the pair
  `(due_date, rowid)`: SQLite returns rows with equal keys in rowid order, and
  rowids coincide with the `AutoField` ids, which increase in insertion order.
  A negative `OFFSET` is treated as zero, as SQLite does (`Int.toNat`).
* peewee `Model.save(force_insert=False)` on an instance whose primary key is
  set issues an UPDATE of the explicitly-set non-pk fields; it never INSERTs.
  This matters for `post_users`, which builds `User(id=..., username=...)`
  by hand: only `username` is in the instance's field dict, so the UPDATE
  touches `username` alone and affects zero rows when the id is absent.
* aiogram dispatch: message handlers are tried in registration order
  (`/start`, `/get_users`, `/post_users`, `/get_todos`, `/todo`, catch-all);
  a command filter matches on the first whitespace-separated token.
* Exceptions raised by the transport (message delete / edit) are modelled by
  boolean fault flags (`deleteFails`, `editFails`); `escaped = true` on a
  result means an exception propagated out of the handler (which would kill
  the dispatch task). -/

namespace VadzHelperBot

/-- Todo record (src/app/database.py, class Todo): generated id, text, status
string drawn from TodoStatus, due timestamp, owning user id. -/
structure Todo where
  id : Nat
  text : String
  status : String
  due : Nat
  userId : Int
  deriving Repr, DecidableEq

/-- User record (src/app/database.py, class User): external id, username,
nullable active_command string (choices: "todo"). -/
structure User where
  id : Int
  username : String
  active_command : Option String
  deriving Repr, DecidableEq

/-- The entity store: the two SQLite tables plus the AutoField counter for
todo ids. -/
structure Store where
  users : List User
  todos : List Todo
  nextTodoId : Nat
  deriving Repr, DecidableEq

/-- Lookup a user by primary key (peewee `User.get` / `User.get_or_none`). -/
def findUser (s : Store) (uid : Int) : Option User :=
  s.users.find? fun u => u.id == uid

/-- Lookup a todo by primary key (peewee `Todo.get_by_id`). -/
def findTodo (s : Store) (tid : Nat) : Option Todo :=
  s.todos.find? fun t => t.id == tid

/-- The rows of `Todo.select().where(Todo.user == user)`, unsorted. -/
def userTodos (s : Store) (uid : Int) : List Todo :=
  s.todos.filter fun t => t.userId == uid

/-- Row order produced by `ORDER BY due_date` in SQLite: ascending due date,
ties in rowid (= insertion) order. -/
def todoLe (a b : Todo) : Prop :=
  a.due < b.due ∨ (a.due = b.due ∧ a.id ≤ b.id)

instance : DecidableRel todoLe := fun a b =>
  decidable_of_iff (a.due < b.due ∨ (a.due = b.due ∧ a.id ≤ b.id)) Iff.rfl

instance : IsTotal Todo todoLe :=
  ⟨fun a b => by unfold todoLe; omega⟩

instance : IsTrans Todo todoLe :=
  ⟨fun a b c => by unfold todoLe; omega⟩

/-- The user's todos as returned by the paged query's ORDER BY clause. -/
def listOrdered (s : Store) (uid : Int) : List Todo :=
  List.insertionSort todoLe (userTodos s uid)

/-- `LIMIT 5 OFFSET (page-1)*5` over the ordered rows; a negative offset
reads from the start, as in SQLite. -/
def pageSlice (l : List Todo) (page : Int) : List Todo :=
  (l.drop ((page - 1) * 5).toNat).take 5

/-- `total_pages = (total_todos + items_per_page - 1) // items_per_page`
(src/app/handlers.py line 178). -/
def totalPagesOf (total : Nat) : Nat :=
  (total + 5 - 1) / 5

/-- Observable outcome of `show_todos_page`. -/
inductive PageOutcome where
  | userMissing : PageOutcome
  | noTodos : PageOutcome
  | served (page : Int) (items : List Todo) (hasPrev hasNext : Bool) : PageOutcome
  | aborted : PageOutcome
  deriving Repr, DecidableEq

/-- Result of a page render: the outcome, whether `callback_query.answer` was
called, the alert text if any, and whether an exception escaped. -/
structure PageRender where
  outcome : PageOutcome
  acked : Bool
  alert : Option String
  escaped : Bool
  deriving Repr, DecidableEq

/-- Model of `show_todos_page(user_id, page, message, callback_query)`
(src/app/handlers.py lines 154-254).  `isCallback` distinguishes the two entry
modes; `deleteFails` simulates `callback_query.message.delete()` raising.
Faithful control flow: user lookup (User.DoesNotExist answers an alert on the
callback path and a plain reply otherwise), the zero-todo short circuit
(which on the callback path returns without answering the callback), the
upper clamp `if page > total_pages`, the slice, the navigation flags, and the
final `callback_query.answer()`. -/
def showTodosPage (s : Store) (uid : Int) (page : Int)
    (isCallback : Bool) (deleteFails : Bool) : PageRender :=
  match findUser s uid with
  | none =>
      if isCallback then ⟨.userMissing, true, some "Error: User not found!", false⟩
      else ⟨.userMissing, false, none, false⟩
  | some _ =>
      let total := (userTodos s uid).length
      if total = 0 then
        ⟨.noTodos, false, none, false⟩
      else
        let tp := totalPagesOf total
        let page2 := if page > (tp : Int) then (tp : Int) else page
        if isCallback && deleteFails then
          ⟨.aborted, false, none, true⟩
        else
          let items := pageSlice (listOrdered s uid) page2
          ⟨.served page2 items (decide (page2 > 1)) (decide (page2 < (tp : Int))),
            isCallback, none, false⟩

/-- Model of `get_todos` (src/app/handlers.py lines 128-151): the page
argument defaults to 1 when absent or unparseable and is pre-clamped to 1
when below 1, then `show_todos_page` runs in message mode. -/
def getTodosCommand (s : Store) (uid : Int) (argPage : Option Int) : PageRender :=
  let page : Int :=
    match argPage with
    | none => 1
    | some p => if p < 1 then 1 else p
  showTodosPage s uid page false false

/-- Model of `handle_get_todos_callback` (src/app/handlers.py lines 297-314):
runs `show_todos_page` in callback mode; any exception is caught and answered
with a generic alert, so nothing escapes the handler. -/
def handleGetTodosCallback (s : Store) (uid : Int) (page : Int)
    (deleteFails : Bool) : PageRender :=
  let r := showTodosPage s uid page true deleteFails
  if r.escaped then ⟨.aborted, true, some "An error occurred", false⟩
  else r

/-- Mark every row with the given primary key done — the effect of
`todo.status = TodoStatus.DONE.value; todo.save()`, an UPDATE by pk. -/
def markDoneStore (s : Store) (tid : Nat) : Store :=
  { s with todos := s.todos.map fun t => if t.id == tid then { t with status := "done" } else t }

/-- Observable outcome of the completion-toggle callback. -/
structure DoneOutcome where
  edited : Option String
  answer : Option String
  alerted : Bool
  escaped : Bool
  deriving Repr, DecidableEq

/-- Model of `handle_done_todo_callback` (src/app/handlers.py lines 257-294):
looks the todo up by id; Todo.DoesNotExist answers a "not found" alert with no
mutation and no message edit; otherwise the status is saved as done, the
originating message is rewritten (unless `editFails` simulates
`edit_text` raising, in which case the generic except answers an alert — the
store mutation has already happened) and the callback is answered. -/
def handleDoneCallback (s : Store) (tid : Nat) (editFails : Bool) :
    Store × DoneOutcome :=
  match findTodo s tid with
  | none => (s, ⟨none, some "Error: Todo not found!", true, false⟩)
  | some t =>
      let s2 := markDoneStore s tid
      if editFails then
        (s2, ⟨none, some "An error occurred", true, false⟩)
      else
        (s2, ⟨some ("✅ " ++ t.text ++ " Due: " ++ toString t.due),
          some "Todo marked as done!", false, false⟩)

/-- First whitespace-separated token of a message text — what an aiogram
command filter matches against (whitespace modelled as the space
character). -/
def firstToken (s : String) : String :=
  ⟨s.data.takeWhile fun c => c ≠ ' '⟩

/-- Characters after the first token and the following space run — the
remainder produced by Python's `split(maxsplit=1)`. -/
def restAfterToken (s : String) : List Char :=
  (s.data.dropWhile fun c => c ≠ ' ').dropWhile fun c => c = ' '

/-- The aiogram `CommandObject.args`: the text after the command token;
`none` when nothing follows. -/
def argsOf (s : String) : Option String :=
  if restAfterToken s = [] then none else some ⟨restAfterToken s⟩

/-- Value of a digit string (most significant first). -/
def natFromDigits (l : List Char) : Nat :=
  l.foldl (fun a c => a * 10 + (c.toNat - 48)) 0

/-- Python's `int(...)` on a string: an optional minus sign followed by at
least one digit (surrounding-whitespace and underscore tolerance not
modelled). -/
def intOfChars : List Char → Option Int
  | [] => none
  | c :: rest =>
      if c = '-' then
        if rest ≠ [] ∧ rest.all Char.isDigit then some (-(natFromDigits rest : Int)) else none
      else if (c :: rest).all Char.isDigit then some ((natFromDigits (c :: rest) : Int))
      else none

/-- The commands with registered handlers, in registration order
(src/app/handlers.py decorators). -/
def knownCommands : List String :=
  ["/start", "/get_users", "/post_users", "/get_todos", "/todo"]

/-- Model of `User.get_or_create(id=..., defaults=...)`: returns the existing
row, or inserts one with `active_command = None` and the default username. -/
def getOrCreateUser (s : Store) (uid : Int) (defaultName : String) :
    Store × User × Bool :=
  match findUser s uid with
  | some u => (s, u, false)
  | none =>
      let u : User := ⟨uid, defaultName, none⟩
      ({ s with users := s.users ++ [u] }, u, true)

/-- UPDATE of a fetched user's `active_command` by pk — the effect of
`user.active_command = ...; user.save()` on an instance loaded from the
store. -/
def setUserCommand (s : Store) (uid : Int) (cmd : Option String) : Store :=
  { s with users := s.users.map fun u => if u.id == uid then { u with active_command := cmd } else u }

/-- Model of `process_todo(user, todo_text, message)` (src/app/handlers.py
lines 346-369): `Todo.create` with status "pending" and due date one week
out, then `if user.active_command:` (Python truthiness: None and "" are
falsy) clear the session and save. -/
def processTodo (s : Store) (now : Nat) (u : User) (todoText : String) :
    Store × List String :=
  let todo : Todo := ⟨s.nextTodoId, todoText, "pending", now + 604800, u.id⟩
  let s2 : Store := { s with todos := s.todos ++ [todo], nextTodoId := s.nextTodoId + 1 }
  let s3 := if u.active_command.getD "" = "" then s2 else setUserCommand s2 u.id none
  (s3, ["Todo created: " ++ todoText])

/-- Model of `handle_todo_command` (src/app/handlers.py lines 317-343):
get-or-create the user; with no argument, open the session with tag "todo"
and prompt; with an argument, create the todo at once. -/
def handleTodoCommand (s : Store) (now : Nat) (uid : Int) (uname : String)
    (args : Option String) : Store × List String :=
  let r := getOrCreateUser s uid uname
  match args with
  | none =>
      (setUserCommand r.1 uid (some "todo"), ["Please enter your todo text:"])
  | some t => processTodo r.1 now r.2.1 t

/-- Model of `command_start_handler` (src/app/handlers.py lines 49-74):
get-or-create the user, greet.  The greeting's display name and the default
username are both modelled by `uname`. -/
def handleStart (s : Store) (uid : Int) (uname : String) : Store × List String :=
  ((getOrCreateUser s uid uname).1, ["Hello, " ++ uname ++ "!"])

/-- Help reply of the catch-all handler (line endings abstracted). -/
def helpText : String :=
  "Sorry, I don't understand that request. Please use one of the available commands: /start - Start the bot /todo - Create a new todo item"

/-- Model of `handle_other_messages` (src/app/handlers.py lines 372-398):
no user row → bootstrap prompt; session tag "todo" → consume the text as the
pending todo; anything else → help reply. -/
def handleOtherMessages (s : Store) (now : Nat) (uid : Int) (text : String) :
    Store × List String :=
  match findUser s uid with
  | none => (s, ["Please start the bot first with /start command"])
  | some u =>
      match u.active_command with
      | some c => if c = "todo" then processTodo s now u text else (s, [helpText])
      | none => (s, [helpText])

/-- The store write of `post_users` after successful argument parsing:
`User(id=user_id, username=username); user.save()`.  Following peewee's
`Model.save` semantics (primary key set, `force_insert` not given), this is
an UPDATE of the one explicitly-set non-pk field, `username`; it inserts
nothing when the id is absent and leaves `active_command` untouched when it
is present.  The success reply is sent unconditionally. -/
def postUsersSave (s : Store) (uid : Int) (name : String) : Store × List String :=
  ({ s with users := s.users.map fun u => if u.id == uid then { u with username := name } else u },
   ["User " ++ name ++ " (ID: " ++ toString uid ++ ") successfully posted!"])

/-- Argument parsing of `post_users`: `args.split(maxsplit=1)` unpacked into
two variables (ValueError when only one token), then `int(user_id)`. -/
def parsePostArgs (args : String) : Option (Int × String) :=
  if restAfterToken args = [] then none
  else
    match intOfChars (firstToken args).data with
    | none => none
    | some i => some (i, ⟨restAfterToken args⟩)

/-- Model of `post_users` (src/app/handlers.py lines 94-126). -/
def postUsers (s : Store) (args : Option String) : Store × List String :=
  match args with
  | none => (s, ["Please provide user ID and username. Usage: /post_users id username"])
  | some a =>
      match parsePostArgs a with
      | none => (s, ["Invalid format. Please use: /post_users id username"])
      | some (uid, name) => postUsersSave s uid name

/-- Reply of `get_users` (JSON rendering abstracted to the username list). -/
def getUsersReply (s : Store) : String :=
  "Users: " ++ String.intercalate ", " (s.users.map fun u => u.username)

/-- Header summarising a page render for the message path. -/
def pageHeader : PageRender → String
  | ⟨.noTodos, _, _, _⟩ => "You don't have any todos yet. Use /todo to create one!"
  | ⟨.userMissing, _, _, _⟩ => "You don't have any todos yet. Use /todo to create one!"
  | ⟨.served p _ _ _, _, _, _⟩ => "Your todos page " ++ toString p
  | ⟨.aborted, _, _, _⟩ => ""

/-- The message dispatch: aiogram tries the registered handlers in order, a
command filter matching on the first token; a message matching no command
falls to the catch-all `handle_other_messages`. -/
def handleMessage (s : Store) (now : Nat) (uid : Int) (uname : String)
    (text : String) : Store × List String :=
  let cmd := firstToken text
  if cmd = "/start" then handleStart s uid uname
  else if cmd = "/get_users" then (s, [getUsersReply s])
  else if cmd = "/post_users" then postUsers s (argsOf text)
  else if cmd = "/get_todos" then
    (s, [pageHeader (getTodosCommand s uid ((argsOf text).bind fun a => intOfChars a.data))])
  else if cmd = "/todo" then handleTodoCommand s now uid uname (argsOf text)
  else handleOtherMessages s now uid text

/-- The page number a render served, when it served one. -/
def servedPageOf : PageRender → Option Int
  | ⟨.served p _ _ _, _, _, _⟩ => some p
  | _ => none

/-- The items a render served, when it served a page. -/
def servedItemsOf : PageRender → Option (List Todo)
  | ⟨.served _ items _ _, _, _, _⟩ => some items
  | _ => none

/- ------------------------------------------------------------------ -/
/- Helper lemmas about the store operations.                           -/
/- ------------------------------------------------------------------ -/

theorem findUser_withTodos (s : Store) (todos : List Todo) (k : Nat) (uid : Int) :
    findUser { s with todos := todos, nextTodoId := k } uid = findUser s uid := rfl

theorem findUser_setUserCommand (s : Store) (uid : Int) (cmd : Option String) :
    findUser (setUserCommand s uid cmd) uid =
      (findUser s uid).map (fun u => { u with active_command := cmd }) := by
  unfold findUser setUserCommand
  rw [List.find?_map]
  have hp : ((fun u : User => u.id == uid) ∘
      (fun u : User => if u.id == uid then { u with active_command := cmd } else u))
      = fun u : User => u.id == uid := by
    funext u
    show ((if u.id == uid then ({ u with active_command := cmd } : User) else u).id == uid)
        = (u.id == uid)
    by_cases h : (u.id == uid) = true
    · rw [if_pos h]
    · rw [if_neg h]
  rw [hp]
  cases hf : s.users.find? (fun u => u.id == uid) with
  | none => rfl
  | some u =>
      have hu := List.find?_some hf
      rw [Option.map_some', Option.map_some', if_pos hu]

theorem findTodo_markDoneStore (s : Store) (tid : Nat) :
    findTodo (markDoneStore s tid) tid =
      (findTodo s tid).map (fun t => { t with status := "done" }) := by
  unfold findTodo markDoneStore
  rw [List.find?_map]
  have hp : ((fun t : Todo => t.id == tid) ∘
      (fun t : Todo => if t.id == tid then { t with status := "done" } else t))
      = fun t : Todo => t.id == tid := by
    funext t
    show ((if t.id == tid then ({ t with status := "done" } : Todo) else t).id == tid)
        = (t.id == tid)
    by_cases h : (t.id == tid) = true
    · rw [if_pos h]
    · rw [if_neg h]
  rw [hp]
  cases hf : s.todos.find? (fun t => t.id == tid) with
  | none => rfl
  | some t =>
      have ht := List.find?_some hf
      rw [Option.map_some', Option.map_some', if_pos ht]

theorem markDoneStore_idem (s : Store) (tid : Nat) :
    markDoneStore (markDoneStore s tid) tid = markDoneStore s tid := by
  unfold markDoneStore
  congr 1
  rw [List.map_map]
  apply List.map_congr_left
  intro t _
  by_cases h : (t.id == tid) = true <;> simp [Function.comp, h]

/- ------------------------------------------------------------------ -/
/- Claim theorems.                                                     -/
/- ------------------------------------------------------------------ -/

/-- C3: the completion-toggle callback on a todo id absent from the store
fails with NotFound: the store is returned unchanged (no mutation of any
stored todo), no message is rewritten, and the presser is shown the
transient "Error: Todo not found!" alert; nothing escapes the handler. -/
theorem markDone_notFound (s : Store) (tid : Nat) (editFails : Bool)
    (h : findTodo s tid = none) :
    handleDoneCallback s tid editFails =
      (s, ⟨none, some "Error: Todo not found!", true, false⟩) := by
  unfold handleDoneCallback
  rw [h]

theorem markDone_notFound_witness :
    findTodo ⟨[], [], 1⟩ 1 = none ∧
    handleDoneCallback ⟨[], [], 1⟩ 1 false =
      (⟨[], [], 1⟩, ⟨none, some "Error: Todo not found!", true, false⟩) :=
  ⟨rfl, markDone_notFound ⟨[], [], 1⟩ 1 false rfl⟩

/-- C4: the completion toggle is idempotent — for an existing todo id,
running it twice leaves the same final store as running it once, every
stored todo with that id is done after one run, and the second invocation
answers with the normal success toast, not an error alert. -/
theorem markDone_idempotent (s : Store) (tid : Nat)
    (h : (findTodo s tid).isSome) :
    (handleDoneCallback (handleDoneCallback s tid false).1 tid false).1
        = (handleDoneCallback s tid false).1 ∧
    (handleDoneCallback (handleDoneCallback s tid false).1 tid false).2.answer
        = some "Todo marked as done!" ∧
    (handleDoneCallback (handleDoneCallback s tid false).1 tid false).2.alerted
        = false ∧
    ∀ t ∈ (handleDoneCallback s tid false).1.todos, t.id = tid → t.status = "done" := by
  obtain ⟨t, ht⟩ := Option.isSome_iff_exists.mp h
  have h1 : handleDoneCallback s tid false =
      (markDoneStore s tid,
        ⟨some ("✅ " ++ t.text ++ " Due: " ++ toString t.due),
          some "Todo marked as done!", false, false⟩) := by
    unfold handleDoneCallback
    rw [ht]
    rfl
  have h2 : findTodo (markDoneStore s tid) tid = some { t with status := "done" } := by
    rw [findTodo_markDoneStore, ht]
    rfl
  have h3 : handleDoneCallback (markDoneStore s tid) tid false =
      (markDoneStore (markDoneStore s tid) tid,
        ⟨some ("✅ " ++ t.text ++ " Due: " ++ toString t.due),
          some "Todo marked as done!", false, false⟩) := by
    unfold handleDoneCallback
    rw [h2]
    rfl
  refine ⟨?_, ?_, ?_, ?_⟩
  · rw [h1, h3]
    exact markDoneStore_idem s tid
  · rw [h1, h3]
  · rw [h1, h3]
  · rw [h1]
    intro x hx hid
    simp only [markDoneStore, List.mem_map] at hx
    obtain ⟨t0, _, hxt⟩ := hx
    by_cases h0 : (t0.id == tid) = true
    · rw [if_pos h0] at hxt
      rw [← hxt]
    · rw [if_neg h0] at hxt
      rw [← hxt] at hid
      exact absurd hid (by simpa using h0)

theorem markDone_idempotent_witness :
    (findTodo ⟨[⟨1, "u", none⟩], [⟨1, "t", "pending", 0, 1⟩], 2⟩ 1).isSome ∧
    (handleDoneCallback
        (handleDoneCallback ⟨[⟨1, "u", none⟩], [⟨1, "t", "pending", 0, 1⟩], 2⟩ 1 false).1
        1 false).1
      = (handleDoneCallback ⟨[⟨1, "u", none⟩], [⟨1, "t", "pending", 0, 1⟩], 2⟩ 1 false).1 ∧
    (handleDoneCallback
        (handleDoneCallback ⟨[⟨1, "u", none⟩], [⟨1, "t", "pending", 0, 1⟩], 2⟩ 1 false).1
        1 false).2.answer = some "Todo marked as done!" :=
  ⟨rfl,
    (markDone_idempotent ⟨[⟨1, "u", none⟩], [⟨1, "t", "pending", 0, 1⟩], 2⟩ 1 rfl).1,
    (markDone_idempotent ⟨[⟨1, "u", none⟩], [⟨1, "t", "pending", 0, 1⟩], 2⟩ 1 rfl).2.1⟩

theorem processTodo_run (s : Store) (now : Nat) (u : User) (txt : String)
    (hu : findUser s u.id = some u)
    (hv : u.active_command = none ∨ u.active_command = some "todo") :
    (processTodo s now u txt).1.todos
        = s.todos ++ [⟨s.nextTodoId, txt, "pending", now + 604800, u.id⟩] ∧
    findUser (processTodo s now u txt).1 u.id = some { u with active_command := none } ∧
    (processTodo s now u txt).2 = ["Todo created: " ++ txt] := by
  obtain ⟨i, n, a⟩ := u
  simp only at hu hv ⊢
  rcases hv with hv | hv <;> subst hv
  · refine ⟨rfl, ?_, rfl⟩
    show findUser { s with
        todos := s.todos ++ [⟨s.nextTodoId, txt, "pending", now + 604800, i⟩],
        nextTodoId := s.nextTodoId + 1 } i = some ⟨i, n, none⟩
    rw [findUser_withTodos, hu]
  · unfold processTodo
    simp only [Option.getD_some]
    rw [if_neg (by decide : ¬(("todo" : String) = ""))]
    refine ⟨rfl, ?_, trivial⟩
    rw [findUser_setUserCommand, findUser_withTodos, hu]
    rfl

/-- C9: for every stored user (with a schema-valid session tag) and every
text, the todo-creation operation appends exactly one todo with status
"pending" and due date one week after creation, replies with the creation
message, and leaves the user's session closed (active_command = none)
whether or not a session was open when it was called. -/
theorem processTodo_spec (s : Store) (now : Nat) (u : User) (txt : String)
    (hu : findUser s u.id = some u)
    (hv : u.active_command = none ∨ u.active_command = some "todo") :
    (processTodo s now u txt).1.todos
        = s.todos ++ [⟨s.nextTodoId, txt, "pending", now + 604800, u.id⟩] ∧
    findUser (processTodo s now u txt).1 u.id = some { u with active_command := none } ∧
    (processTodo s now u txt).2 = ["Todo created: " ++ txt] :=
  processTodo_run s now u txt hu hv

theorem processTodo_spec_witness :
    findUser ⟨[⟨1, "u", some "todo"⟩], [], 1⟩ (1 : Int) = some ⟨1, "u", some "todo"⟩ ∧
    (processTodo ⟨[⟨1, "u", some "todo"⟩], [], 1⟩ 0 ⟨1, "u", some "todo"⟩ "x").1.todos
        = [⟨1, "x", "pending", 604800, 1⟩] ∧
    findUser (processTodo ⟨[⟨1, "u", some "todo"⟩], [], 1⟩ 0 ⟨1, "u", some "todo"⟩ "x").1 1
        = some ⟨1, "u", none⟩ :=
  ⟨rfl,
    (processTodo_spec ⟨[⟨1, "u", some "todo"⟩], [], 1⟩ 0 ⟨1, "u", some "todo"⟩ "x" rfl
      (Or.inr rfl)).1,
    (processTodo_spec ⟨[⟨1, "u", some "todo"⟩], [], 1⟩ 0 ⟨1, "u", some "todo"⟩ "x" rfl
      (Or.inr rfl)).2.1⟩


/- ------------------------------------------------------------------ -/
/- Message dispatch lemmas.                                            -/
/- ------------------------------------------------------------------ -/

theorem handleMessage_todo_noargs (s : Store) (now : Nat) (uid : Int) (uname : String) :
    handleMessage s now uid uname "/todo" = handleTodoCommand s now uid uname none := rfl

theorem handleMessage_start (s : Store) (now : Nat) (uid : Int) (uname : String) :
    handleMessage s now uid uname "/start" = handleStart s uid uname := rfl

theorem handleMessage_free (s : Store) (now : Nat) (uid : Int) (uname txt : String)
    (h : firstToken txt ∉ knownCommands) :
    handleMessage s now uid uname txt = handleOtherMessages s now uid txt := by
  simp only [knownCommands, List.mem_cons, List.not_mem_nil, or_false] at h
  push_neg at h
  obtain ⟨h1, h2, h3, h4, h5⟩ := h
  simp only [handleMessage]
  rw [if_neg h1, if_neg h2, if_neg h3, if_neg h4, if_neg h5]

/-- C2: a fresh user sending /todo with no argument gets the prompt and a
session in state AwaitingTodoText (active_command = "todo"); the next
free-text message creates exactly one todo carrying that text, with status
"pending" and due date creation time plus seven days, and the session
returns to Idle (active_command = none). -/
theorem todoPromptScenario (s : Store) (now1 now2 : Nat) (uid : Int) (uname txt : String)
    (hfresh : findUser s uid = none)
    (hfree : firstToken txt ∉ knownCommands) :
    (handleMessage s now1 uid uname "/todo").2 = ["Please enter your todo text:"] ∧
    findUser (handleMessage s now1 uid uname "/todo").1 uid = some ⟨uid, uname, some "todo"⟩ ∧
    (handleMessage (handleMessage s now1 uid uname "/todo").1 now2 uid uname txt).1.todos
        = s.todos ++ [⟨s.nextTodoId, txt, "pending", now2 + 604800, uid⟩] ∧
    findUser (handleMessage (handleMessage s now1 uid uname "/todo").1 now2 uid uname txt).1 uid
        = some ⟨uid, uname, none⟩ := by
  have husers : ∀ u ∈ s.users, (u.id == uid) = false := by
    intro u hu
    cases hb : (u.id == uid) with
    | false => rfl
    | true => exact absurd hb (List.find?_eq_none.mp hfresh u hu)
  have hmap : (s.users ++ [(⟨uid, uname, none⟩ : User)]).map
      (fun u => if u.id == uid then { u with active_command := some "todo" } else u)
      = s.users ++ [⟨uid, uname, some "todo"⟩] := by
    rw [List.map_append]
    congr 1
    · conv_rhs => rw [← List.map_id s.users]
      apply List.map_congr_left
      intro u hu
      rw [if_neg (by rw [husers u hu]; decide)]
      rfl
    · simp
  have hstep1 : handleMessage s now1 uid uname "/todo"
      = (⟨s.users ++ [⟨uid, uname, some "todo"⟩], s.todos, s.nextTodoId⟩,
          ["Please enter your todo text:"]) := by
    rw [handleMessage_todo_noargs]
    simp only [handleTodoCommand, getOrCreateUser, hfresh, setUserCommand]
    rw [hmap]
  have hfind1 : findUser
      (⟨s.users ++ [⟨uid, uname, some "todo"⟩], s.todos, s.nextTodoId⟩ : Store) uid
      = some ⟨uid, uname, some "todo"⟩ := by
    show List.find? (fun u => u.id == uid) (s.users ++ [⟨uid, uname, some "todo"⟩]) = _
    rw [List.find?_append]
    rw [show List.find? (fun u : User => u.id == uid) s.users = none from hfresh]
    simp
  have hstep2 : handleMessage
      (⟨s.users ++ [⟨uid, uname, some "todo"⟩], s.todos, s.nextTodoId⟩ : Store) now2 uid uname txt
      = processTodo ⟨s.users ++ [⟨uid, uname, some "todo"⟩], s.todos, s.nextTodoId⟩ now2
          ⟨uid, uname, some "todo"⟩ txt := by
    rw [handleMessage_free _ _ _ _ _ hfree]
    simp only [handleOtherMessages, hfind1]
    rw [if_pos trivial]
  refine ⟨by rw [hstep1], by rw [hstep1]; exact hfind1, ?_, ?_⟩
  · simp only [hstep1]
    rw [hstep2]
    exact (processTodo_run ⟨s.users ++ [⟨uid, uname, some "todo"⟩], s.todos, s.nextTodoId⟩
      now2 ⟨uid, uname, some "todo"⟩ txt hfind1 (Or.inr rfl)).1
  · simp only [hstep1]
    rw [hstep2]
    exact (processTodo_run ⟨s.users ++ [⟨uid, uname, some "todo"⟩], s.todos, s.nextTodoId⟩
      now2 ⟨uid, uname, some "todo"⟩ txt hfind1 (Or.inr rfl)).2.1

theorem todoPromptScenario_witness :
    findUser ⟨[], [], 1⟩ 1 = none ∧
    firstToken "buy milk" ∉ knownCommands ∧
    (handleMessage ⟨[], [], 1⟩ 100 1 "u" "/todo").2 = ["Please enter your todo text:"] ∧
    (handleMessage (handleMessage ⟨[], [], 1⟩ 100 1 "u" "/todo").1 200 1 "u" "buy milk").1.todos
        = [⟨1, "buy milk", "pending", 200 + 604800, 1⟩] ∧
    findUser (handleMessage (handleMessage ⟨[], [], 1⟩ 100 1 "u" "/todo").1 200 1 "u" "buy milk").1 1
        = some ⟨1, "u", none⟩ :=
  ⟨rfl, by decide,
    (todoPromptScenario ⟨[], [], 1⟩ 100 200 1 "u" "buy milk" rfl (by decide)).1,
    (todoPromptScenario ⟨[], [], 1⟩ 100 200 1 "u" "buy milk" rfl (by decide)).2.2.1,
    (todoPromptScenario ⟨[], [], 1⟩ 100 200 1 "u" "buy milk" rfl (by decide)).2.2.2⟩

/-- C8 counterexample: a user whose session is AwaitingTodoText
(active_command = "todo") sends "/start"; the registered /start handler
runs — the store is unchanged (no todo is created from the command text,
the session stays open) and the greeting is sent — refuting the claim that
the message is silently consumed as the pending todo text. -/
theorem awaitingText_command_counterexample :
    handleMessage ⟨[⟨1, "u", some "todo"⟩], [], 1⟩ 0 1 "u" "/start"
      = (⟨[⟨1, "u", some "todo"⟩], [], 1⟩, ["Hello, u!"]) := rfl

/-- C8 amended: aiogram matches registered command filters before the
catch-all, so a message matching a recognized command (here /start) is
dispatched to that command's handler even while the user is in
AwaitingTodoText — no todo is created and the session survives untouched;
only text matching no registered command is consumed as the pending todo
text. -/
theorem awaitingText_amended (s : Store) (now : Nat) (uid : Int) (uname : String)
    (u : User) (txt : String)
    (hu : findUser s uid = some u) (hcmd : u.active_command = some "todo")
    (hfree : firstToken txt ∉ knownCommands) :
    (handleMessage s now uid uname "/start").1.todos = s.todos ∧
    (handleMessage s now uid uname "/start").2 = ["Hello, " ++ uname ++ "!"] ∧
    findUser (handleMessage s now uid uname "/start").1 uid = some u ∧
    (handleMessage s now uid uname txt).1.todos
        = s.todos ++ [⟨s.nextTodoId, txt, "pending", now + 604800, u.id⟩] := by
  have hstart : handleMessage s now uid uname "/start" = (s, ["Hello, " ++ uname ++ "!"]) := by
    rw [handleMessage_start]
    unfold handleStart getOrCreateUser
    rw [hu]
  have hu2 : findUser s u.id = some u := by
    have hb : (u.id == uid) = true :=
      @List.find?_some User (fun v : User => v.id == uid) u s.users hu
    have hid : u.id = uid := eq_of_beq hb
    rw [hid]
    exact hu
  have hfreeStep : handleMessage s now uid uname txt = processTodo s now u txt := by
    rw [handleMessage_free _ _ _ _ _ hfree]
    simp only [handleOtherMessages, hu, hcmd]
    rw [if_pos trivial]
  refine ⟨by rw [hstart], by rw [hstart], by rw [hstart]; exact hu, ?_⟩
  rw [hfreeStep]
  exact (processTodo_run s now u txt hu2 (Or.inr hcmd)).1

theorem awaitingText_amended_witness :
    findUser ⟨[⟨1, "u", some "todo"⟩], [], 1⟩ 1 = some ⟨1, "u", some "todo"⟩ ∧
    firstToken "buy milk" ∉ knownCommands ∧
    (handleMessage ⟨[⟨1, "u", some "todo"⟩], [], 1⟩ 0 1 "u" "/start").1.todos = [] ∧
    (handleMessage ⟨[⟨1, "u", some "todo"⟩], [], 1⟩ 0 1 "u" "buy milk").1.todos
        = [⟨1, "buy milk", "pending", 604800, 1⟩] :=
  ⟨rfl, by decide,
    (awaitingText_amended ⟨[⟨1, "u", some "todo"⟩], [], 1⟩ 0 1 "u" ⟨1, "u", some "todo"⟩
      "buy milk" rfl rfl (by decide)).1,
    (awaitingText_amended ⟨[⟨1, "u", some "todo"⟩], [], 1⟩ 0 1 "u" ⟨1, "u", some "todo"⟩
      "buy milk" rfl rfl (by decide)).2.2.2⟩


/- ------------------------------------------------------------------ -/
/- Pagination lemmas.                                                  -/
/- ------------------------------------------------------------------ -/

theorem showTodosPage_served (s : Store) (uid : Int) (q : Int) (cb : Bool) (u : User)
    (hu : findUser s uid = some u) (hn : ¬(userTodos s uid).length = 0) :
    showTodosPage s uid q cb false =
      let tp : Int := (totalPagesOf (userTodos s uid).length : Int)
      let q2 := if q > tp then tp else q
      ⟨.served q2 (pageSlice (listOrdered s uid) q2) (decide (q2 > 1)) (decide (q2 < tp)),
        cb, none, false⟩ := by
  simp only [showTodosPage, hu]
  rw [if_neg hn]
  cases cb <;> rfl

theorem chunks_take {α : Type} (n : Nat) (l : List α) :
    (List.range n).flatMap (fun i => (l.drop (5 * i)).take 5) = l.take (5 * n) := by
  induction n with
  | zero => simp
  | succ n ih =>
      rw [List.range_succ, List.flatMap_append, ih]
      simp only [List.flatMap_cons, List.flatMap_nil, List.append_nil]
      rw [Nat.mul_succ, List.take_add]

theorem pages_concat (l : List Todo) :
    (List.range (totalPagesOf l.length)).flatMap (fun i => pageSlice l ((i : Int) + 1)) = l := by
  have hs : ∀ i : Nat, pageSlice l ((i : Int) + 1) = (l.drop (5 * i)).take 5 := by
    intro i
    unfold pageSlice
    have hx : ((((i : Int) + 1) - 1) * 5).toNat = 5 * i := by omega
    rw [hx]
  simp only [hs]
  rw [chunks_take]
  apply List.take_of_length_le
  unfold totalPagesOf
  omega

/-- C1 counterexample: with one todo, a navigation callback requesting page 0
serves page 0 — the negative offset reads the page-1 items, but the page is
not clamped to 1: the render carries page 0 and a Next button (hasNext,
since 0 < 1 = totalPages), where the clamped page 1 would have neither
navigation direction. -/
theorem pageClamp_counterexample :
    (handleGetTodosCallback ⟨[⟨1, "u", none⟩], [⟨1, "t", "pending", 0, 1⟩], 2⟩ 1 0 false).outcome
      = .served 0 [⟨1, "t", "pending", 0, 1⟩] false true ∧
    totalPagesOf (userTodos ⟨[⟨1, "u", none⟩], [⟨1, "t", "pending", 0, 1⟩], 2⟩ 1).length = 1 ∧
    (handleGetTodosCallback ⟨[⟨1, "u", none⟩], [⟨1, "t", "pending", 0, 1⟩], 2⟩ 1 0 false).outcome
      ≠ .served 1 [⟨1, "t", "pending", 0, 1⟩] false false :=
  ⟨rfl, rfl, by decide⟩

/-- C1 amended: the /get_todos command path always serves the requested page
clamped to [1, totalPages]; the navigation-callback path clamps only the
upper bound — a request at or above 1 serves min(p, totalPages), while a
request below 1 is passed through unclamped (its item slice coincides with
page 1 because the negative offset reads from the start). -/
theorem pageClamp_amended (s : Store) (uid : Int) (p : Int)
    (hu : (findUser s uid).isSome) (hn : ¬(userTodos s uid).length = 0) :
    servedPageOf (getTodosCommand s uid (some p))
        = some (min (max 1 p) (totalPagesOf (userTodos s uid).length : Int)) ∧
    (1 ≤ p → servedPageOf (handleGetTodosCallback s uid p false)
        = some (min p (totalPagesOf (userTodos s uid).length : Int))) ∧
    (p < 1 → servedPageOf (handleGetTodosCallback s uid p false) = some p ∧
        servedItemsOf (handleGetTodosCallback s uid p false)
          = some (pageSlice (listOrdered s uid) 1)) := by
  obtain ⟨u, hu⟩ := Option.isSome_iff_exists.mp hu
  have htp : 1 ≤ totalPagesOf (userTodos s uid).length := by
    unfold totalPagesOf
    omega
  have hcb : handleGetTodosCallback s uid p false = showTodosPage s uid p true false := by
    unfold handleGetTodosCallback
    rw [showTodosPage_served s uid p true u hu hn]
    rfl
  refine ⟨?_, ?_, ?_⟩
  · unfold getTodosCommand
    rw [showTodosPage_served s uid _ false u hu hn]
    simp only [servedPageOf]
    congr 1
    split_ifs <;> omega
  · intro h1
    rw [hcb, showTodosPage_served s uid p true u hu hn]
    simp only [servedPageOf]
    congr 1
    split_ifs <;> omega
  · intro h1
    rw [hcb, showTodosPage_served s uid p true u hu hn]
    have hnp : ¬(p > (totalPagesOf (userTodos s uid).length : Int)) := by omega
    constructor
    · simp only [servedPageOf]
      rw [if_neg hnp]
    · simp only [servedItemsOf]
      rw [if_neg hnp]
      congr 1
      unfold pageSlice
      have : ((p - 1) * 5).toNat = (((1 : Int) - 1) * 5).toNat := by omega
      rw [this]

theorem pageClamp_amended_witness :
    (findUser ⟨[⟨1, "u", none⟩], [⟨1, "t", "pending", 0, 1⟩], 2⟩ 1).isSome ∧
    ¬(userTodos ⟨[⟨1, "u", none⟩], [⟨1, "t", "pending", 0, 1⟩], 2⟩ 1).length = 0 ∧
    servedPageOf (getTodosCommand ⟨[⟨1, "u", none⟩], [⟨1, "t", "pending", 0, 1⟩], 2⟩ 1 (some 7))
        = some 1 :=
  ⟨rfl, by decide,
    (pageClamp_amended ⟨[⟨1, "u", none⟩], [⟨1, "t", "pending", 0, 1⟩], 2⟩ 1 7 rfl (by decide)).1⟩

/-- C5: concatenating the page slices for pages 1 through ceil(N/5) of the
ordered listing reproduces the user's full todo set — the listing is a
permutation of the user's todos, sorted ascending by due date with ties in
insertion (id) order — and for every in-range page the /get_todos command
serves exactly that page's slice. -/
theorem listingPages_complete (s : Store) (uid : Int) :
    (List.range (totalPagesOf (listOrdered s uid).length)).flatMap
        (fun i => pageSlice (listOrdered s uid) ((i : Int) + 1)) = listOrdered s uid ∧
    (listOrdered s uid).Perm (userTodos s uid) ∧
    (listOrdered s uid).Sorted todoLe ∧
    ∀ p : Nat, (findUser s uid).isSome → 1 ≤ p → p ≤ totalPagesOf (userTodos s uid).length →
      servedItemsOf (getTodosCommand s uid (some (p : Int)))
        = some (pageSlice (listOrdered s uid) (p : Int)) := by
  refine ⟨pages_concat _, List.perm_insertionSort _ _, List.sorted_insertionSort _ _, ?_⟩
  intro p hu h1 h2
  obtain ⟨u, hu⟩ := Option.isSome_iff_exists.mp hu
  have hn : ¬(userTodos s uid).length = 0 := by
    intro h
    rw [h] at h2
    unfold totalPagesOf at h2
    omega
  simp only [getTodosCommand]
  rw [if_neg (by omega : ¬((p : Int) < 1))]
  rw [showTodosPage_served s uid _ false u hu hn]
  simp only [servedItemsOf]
  rw [if_neg (by omega : ¬((p : Int) > (totalPagesOf (userTodos s uid).length : Int)))]

theorem listingPages_complete_witness :
    (findUser ⟨[⟨1, "u", none⟩], [⟨1, "a", "pending", 5, 1⟩, ⟨2, "b", "pending", 3, 1⟩,
        ⟨3, "c", "pending", 3, 1⟩, ⟨4, "d", "pending", 9, 1⟩, ⟨5, "e", "pending", 1, 1⟩,
        ⟨6, "f", "pending", 3, 1⟩], 7⟩ 1).isSome ∧
    servedItemsOf (getTodosCommand ⟨[⟨1, "u", none⟩], [⟨1, "a", "pending", 5, 1⟩,
        ⟨2, "b", "pending", 3, 1⟩, ⟨3, "c", "pending", 3, 1⟩, ⟨4, "d", "pending", 9, 1⟩,
        ⟨5, "e", "pending", 1, 1⟩, ⟨6, "f", "pending", 3, 1⟩], 7⟩ 1 (some 2))
      = some (pageSlice (listOrdered ⟨[⟨1, "u", none⟩], [⟨1, "a", "pending", 5, 1⟩,
        ⟨2, "b", "pending", 3, 1⟩, ⟨3, "c", "pending", 3, 1⟩, ⟨4, "d", "pending", 9, 1⟩,
        ⟨5, "e", "pending", 1, 1⟩, ⟨6, "f", "pending", 3, 1⟩], 7⟩ 1) 2) :=
  ⟨rfl,
    (listingPages_complete ⟨[⟨1, "u", none⟩], [⟨1, "a", "pending", 5, 1⟩,
        ⟨2, "b", "pending", 3, 1⟩, ⟨3, "c", "pending", 3, 1⟩, ⟨4, "d", "pending", 9, 1⟩,
        ⟨5, "e", "pending", 1, 1⟩, ⟨6, "f", "pending", 3, 1⟩], 7⟩ 1).2.2.2 2 rfl
      (by decide) (by decide)⟩

/- ------------------------------------------------------------------ -/
/- Callback acknowledgement and post_users.                            -/
/- ------------------------------------------------------------------ -/

/-- C6 counterexample: a page-navigation callback for a user who exists but
has zero todos returns without calling `callback_query.answer` — the
callback is left unacknowledged, refuting the claim that every callback
outcome is acknowledged. -/
theorem callbackAck_counterexample :
    (handleGetTodosCallback ⟨[⟨1, "u", none⟩], [], 1⟩ 1 1 false).acked = false := rfl

/-- C6 amended: no callback handler ever lets an exception escape (the
dispatch loop cannot be terminated), the completion-toggle callback is
always answered, and the page-navigation callback is answered in every case
except exactly one: the user exists and has zero todos, where the handler
returns without acknowledging. -/
theorem callbackAck_amended (s : Store) (uid : Int) (p : Int) (tid : Nat) (df ef : Bool) :
    (handleGetTodosCallback s uid p df).escaped = false ∧
    (handleDoneCallback s tid ef).2.escaped = false ∧
    (handleDoneCallback s tid ef).2.answer.isSome = true ∧
    ((handleGetTodosCallback s uid p df).acked = false ↔
      ((findUser s uid).isSome ∧ userTodos s uid = [])) := by
  have hdone : (handleDoneCallback s tid ef).2.escaped = false ∧
      (handleDoneCallback s tid ef).2.answer.isSome = true := by
    unfold handleDoneCallback
    cases hft : findTodo s tid with
    | none => exact ⟨rfl, rfl⟩
    | some t => cases ef <;> exact ⟨rfl, rfl⟩
  have hnav : (handleGetTodosCallback s uid p df).escaped = false ∧
      ((handleGetTodosCallback s uid p df).acked = false ↔
        ((findUser s uid).isSome ∧ userTodos s uid = [])) := by
    unfold handleGetTodosCallback showTodosPage
    cases hu : findUser s uid with
    | none => simp
    | some u =>
        by_cases h0 : (userTodos s uid).length = 0
        · rw [if_pos h0]
          simpa using List.length_eq_zero.mp h0
        · rw [if_neg h0]
          have hne : ¬(userTodos s uid = []) := fun h => h0 (by rw [h]; rfl)
          cases df <;> simp [hne]
  exact ⟨hnav.1, hdone.1, hdone.2, hnav.2⟩

/-- C7 (against the claim): /post_users with the well-formed argument pair
"42 alice" on a store with no user 42 inserts nothing — peewee's save() with
a manually-set primary key issues an UPDATE, which matches zero rows — yet
the success reply is still sent.  Afterwards no User record with id 42
exists, contradicting the claim (and the handler's own docstring, log
message and reply, which all say a user was created). -/
theorem postUsers_fresh_no_insert :
    (postUsers ⟨[], [], 1⟩ (some "42 alice")).1 = ⟨[], [], 1⟩ ∧
    findUser (postUsers ⟨[], [], 1⟩ (some "42 alice")).1 42 = none ∧
    (postUsers ⟨[], [], 1⟩ (some "42 alice")).2
        = ["User alice (ID: 42) successfully posted!"] := ⟨rfl, rfl, rfl⟩

/-- C10 counterexample: /post_users on an existing user (id 1, session open
with active_command "todo") overwrites the username but leaves
active_command at "todo" — the session is not closed and the field is not
reset to none, refuting the claim. -/
theorem postUsers_overwrite_counterexample :
    (postUsers ⟨[⟨1, "old", some "todo"⟩], [], 1⟩ (some "1 new")).1
      = ⟨[⟨1, "new", some "todo"⟩], [], 1⟩ := rfl

theorem findUser_postUsersSave (s : Store) (uid : Int) (name : String) :
    findUser (postUsersSave s uid name).1 uid =
      (findUser s uid).map (fun u => { u with username := name }) := by
  unfold findUser postUsersSave
  rw [List.find?_map]
  have hp : ((fun u : User => u.id == uid) ∘
      (fun u : User => if u.id == uid then { u with username := name } else u))
      = fun u : User => u.id == uid := by
    funext u
    show ((if u.id == uid then ({ u with username := name } : User) else u).id == uid)
        = (u.id == uid)
    by_cases h : (u.id == uid) = true
    · rw [if_pos h]
    · rw [if_neg h]
  rw [hp]
  cases hf : s.users.find? (fun u => u.id == uid) with
  | none => rfl
  | some u =>
      have hu := List.find?_some hf
      rw [Option.map_some', Option.map_some', if_pos hu]

/-- C10 amended: for an existing User record, /post_users overwrites only the
stored username (peewee save() issues an UPDATE of the explicitly-set
non-key fields) and replies with the success message; every other field —
in particular active_command, hence any open session — is preserved. -/
theorem postUsers_overwrite_amended (s : Store) (uid : Int) (name : String) (u : User)
    (hu : findUser s uid = some u) :
    findUser (postUsersSave s uid name).1 uid = some { u with username := name } ∧
    (postUsersSave s uid name).2
      = ["User " ++ name ++ " (ID: " ++ toString uid ++ ") successfully posted!"] := by
  refine ⟨?_, rfl⟩
  rw [findUser_postUsersSave, hu]
  rfl

theorem postUsers_overwrite_amended_witness :
    findUser ⟨[⟨1, "old", some "todo"⟩], [], 1⟩ 1 = some ⟨1, "old", some "todo"⟩ ∧
    findUser (postUsersSave ⟨[⟨1, "old", some "todo"⟩], [], 1⟩ 1 "new").1 1
      = some ⟨1, "new", some "todo"⟩ :=
  ⟨rfl, (postUsers_overwrite_amended ⟨[⟨1, "old", some "todo"⟩], [], 1⟩ 1 "new"
    ⟨1, "old", some "todo"⟩ rfl).1⟩

end VadzHelperBot
